/-
  Verification of the OptiMoney transaction pattern detection and
  recommendation engine against its natural-language specification.

  Shallow embedding conventions:
  * Python floats are modelled as exact rationals (ℚ).
  * Dates are modelled as integer day numbers (ℤ); `(d2 - d1).days`
    becomes plain integer subtraction.
  * `statistics.stdev` (sample standard deviation) never appears directly:
    every comparison `stdev xs / mean xs > c` in the source is translated
    to the equivalent square-free comparison
    `sampleVariance xs * (1/c)^2 > (mean xs)^2` (valid whenever
    `mean xs > 0`, which each use site guards).
  * Dictionaries with a fixed key set (`metadata`, `analysis_flags`,
    `metrics`, `savings_potential`, `user_interaction`) become structure
    fields.
-/
import Mathlib

namespace OptiMoney

/-- A transaction, with the metadata and analysis-flag fields the
pattern-detection code reads (`models/transaction_model.py` plus the
derived `metadata` / `analysis_flags` maps). -/
structure Txn where
  tid : Nat
  amount : ℚ
  /-- date as an integer day number -/
  date : ℤ
  category : String
  description : String
  is_expense : Bool
  /-- `metadata["isRecurring"]` -/
  isRecurring : Bool
  /-- `metadata["recurrenceGroupId"]` -/
  recurrenceGroupId : Option String
  /-- `analysis_flags["isOptimizableRecurring"]` -/
  isOptimizableRecurring : Bool
  /-- `metadata["dayOfWeek"]` (0 = Sunday .. 6 = Saturday), absent if unset -/
  dayOfWeek : Option ℤ
  /-- `metadata["timeOfDay"]`, absent if unset -/
  timeOfDay : Option String
  deriving Repr, DecidableEq

/-- Python `min` over a nonempty list of integers (0 for the empty list,
which no caller reaches). -/
def listMinZ : List ℤ → ℤ
  | [] => 0
  | x :: xs => xs.foldl min x

/-- Python `max` over a nonempty list of integers (0 for the empty list,
which no caller reaches). -/
def listMaxZ : List ℤ → ℤ
  | [] => 0
  | x :: xs => xs.foldl max x

/-- `sum(xs) / len(xs)` (0 for the empty list, which no caller reaches). -/
def listMean (xs : List ℚ) : ℚ := xs.sum / xs.length

/-- Interpreting a list of integer day-gaps as rationals. -/
def intCastList (xs : List ℤ) : List ℚ := xs.map (fun g => (g : ℚ))

/-- `statistics.stdev xs ^ 2`: the sample variance with denominator
`len(xs) - 1` (callers guarantee `len(xs) ≥ 2`). -/
def sampleVariance (xs : List ℚ) : ℚ :=
  (xs.map (fun x => (x - listMean xs) ^ 2)).sum / ((xs.length : ℚ) - 1)

/-- The day-gaps between consecutive transactions:
`[(ts[i].date - ts[i-1].date).days for i in 1..len-1]`
(`_check_recurring_pattern`, transaction_analysis_service.py:288-291). -/
def dayGaps (ts : List Txn) : List ℤ :=
  (ts.zip ts.tail).map (fun p => p.2.date - p.1.date)

/-- The periodicity step of `_check_recurring_pattern`
(transaction_analysis_service.py:286-315).  `some b` models an early
`return b`; `none` models falling through to the amount-variation step.
The branch for exactly two intervals models
`ratio = max/min if min > 0 else inf; return ratio < 2.0`; the branch for
three or more intervals models `std_dev / mean_interval > 0.5` as
`4 * variance > mean²` (mean is positive there). -/
def gapsVerdict (ts : List Txn) : Option Bool :=
  if 3 ≤ ts.length then
    let gaps := dayGaps ts
    let gq : List ℚ := intCastList gaps
    let meanInterval := listMean gq
    if meanInterval ≤ 0 then some false
    else if gaps.length = 2 then
      some (decide (0 < listMinZ gaps ∧ listMaxZ gaps < 2 * listMinZ gaps))
    else if 4 * sampleVariance gq > meanInterval ^ 2 then some false
    else none
  else none

/-- The amount-variation step of `_check_recurring_pattern`
(transaction_analysis_service.py:317-338): reject when the coefficient of
variation of the amounts exceeds `recurring_max_variance = 0.2`;
`std/mean > 1/5` is modelled as `25 * variance > mean²` (mean is positive
there). -/
def amountsVerdict (ts : List Txn) : Bool :=
  let amounts := ts.map (·.amount)
  if amounts.isEmpty then false
  else
    let meanAmount := listMean amounts
    if meanAmount ≤ 0 then false
    else decide (25 * sampleVariance amounts ≤ meanAmount ^ 2)

/-- `_check_recurring_pattern(sorted_transactions)`
(transaction_analysis_service.py:269-338), with
`recurring_min_frequency = 2`. -/
def checkRecurringPattern (ts : List Txn) : Bool :=
  if ts.length < 2 then false
  else
    match gapsVerdict ts with
    | some b => b
    | none => amountsVerdict ts

/-- The `metrics` map of a `Pattern` (models/pattern_model.py); only the
numeric fields the detectors and the synthesizer read are kept. -/
structure Metrics where
  frequency : ℚ
  totalAmount : ℚ
  averageAmount : ℚ
  deviation : ℚ
  confidence : ℚ
  deriving Repr, DecidableEq

/-- The `savings_potential` map of a `Pattern`. -/
structure SavingsPotential where
  estimatedMonthly : ℚ
  estimatedYearly : ℚ
  optimizationPercentage : ℤ
  calculationMethod : String
  deriving Repr, DecidableEq

/-- A detected `Pattern` (models/pattern_model.py); `ptype` embeds the
source's `type` field (a Lean keyword).  `pid` is the identity assigned on
persistence (empty for a freshly constructed pattern). -/
structure Pattern where
  pid : String := ""
  user_id : String
  ptype : String
  category : String
  metrics : Metrics
  savings_potential : SavingsPotential
  related_transactions : List Nat
  deriving Repr, DecidableEq

/-- `micro_expense_threshold` from the analysis-service config. -/
def microExpenseThreshold : ℚ := 10000

/-- The input filter of `_detect_micro_expense_patterns`
(transaction_analysis_service.py:358-362): expenses whose amount is at
most the micro-expense threshold. -/
def isMicroTxn (t : Txn) : Bool := t.is_expense && t.amount ≤ microExpenseThreshold

/-- The category group the micro-expense detector forms for `cat`:
micro-expense transactions of that category. -/
def microGroup (txns : List Txn) (cat : String) : List Txn :=
  (txns.filter isMicroTxn).filter (fun t => t.category = cat)

/-- The micro-expense group's total amount for a category. -/
def microTotal (txns : List Txn) (cat : String) : ℚ :=
  ((microGroup txns cat).map (·.amount)).sum

/-- The raw day-range of the micro-expense group's dates. -/
def microDateRange0 (txns : List Txn) (cat : String) : ℤ :=
  listMaxZ ((microGroup txns cat).map (·.date)) -
    listMinZ ((microGroup txns cat).map (·.date))

/-- The group's `date_range` after the source's zero-to-one adjustment. -/
def microDateRange (txns : List Txn) (cat : String) : ℤ :=
  if microDateRange0 txns cat = 0 then 1 else microDateRange0 txns cat

/-- The micro-expense detector's estimated monthly savings for a category:
half the monthly-normalized group total. -/
def microMonthly (txns : List Txn) (cat : String) : ℚ :=
  if 0 < microDateRange txns cat then
    (microTotal txns cat / ((microDateRange txns cat : ℚ) / 30)) * (1/2)
  else 0

/-- The micro-expense pattern the detector builds for a qualifying
category. -/
def microPatternFor (uid : String) (txns : List Txn) (cat : String) : Pattern :=
  { pid := ""
    user_id := uid
    ptype := "micro_expense"
    category := cat
    metrics := { frequency := ((microGroup txns cat).length : ℚ) /
                   ((microDateRange txns cat : ℚ) / 30)
                 totalAmount := microTotal txns cat
                 averageAmount := microTotal txns cat / (microGroup txns cat).length
                 deviation := 0
                 confidence := 85/100 }
    savings_potential := { estimatedMonthly := microMonthly txns cat
                           estimatedYearly := microMonthly txns cat * 12
                           optimizationPercentage := 50
                           calculationMethod := "historical" }
    related_transactions := (microGroup txns cat).map (·.tid) }

/-- `_detect_micro_expense_patterns(user_id, transactions)`
(transaction_analysis_service.py:340-437), without the repository writes.
For each category of micro-expense transactions with at least
`min_transactions_for_pattern = 3` members and a total of at least
`3 × micro_expense_threshold`, one `micro_expense` pattern is built.
A group that passes the size guard has ≥ 2 members, so the source's
`len(group) >= 2` branch defining `date_range` is always taken. -/
def detectMicroExpensePatterns (uid : String) (txns : List Txn) : List Pattern :=
  let micro := txns.filter isMicroTxn
  let cats := (micro.map (·.category)).dedup
  cats.filterMap (fun cat =>
    let group := micro.filter (fun t => t.category = cat)
    if 3 ≤ group.length then
      let total := (group.map (·.amount)).sum
      let avg := total / group.length
      let dr0 := listMaxZ (group.map (·.date)) - listMinZ (group.map (·.date))
      let dr : ℤ := if dr0 = 0 then 1 else dr0
      let freq : ℚ := (group.length : ℚ) / ((dr : ℚ) / 30)
      if microExpenseThreshold * 3 ≤ total then
        let monthly : ℚ := if 0 < dr then (total / ((dr : ℚ) / 30)) * (1/2) else 0
        some { user_id := uid
               ptype := "micro_expense"
               category := cat
               metrics := { frequency := freq, totalAmount := total,
                            averageAmount := avg, deviation := 0,
                            confidence := 85/100 }
               savings_potential := { estimatedMonthly := monthly,
                                      estimatedYearly := monthly * 12,
                                      optimizationPercentage := 50,
                                      calculationMethod := "historical" }
               related_transactions := group.map (·.tid) }
      else none
    else none)

/-- `_detect_recurring_patterns(user_id, transactions)`
(transaction_analysis_service.py:439-569), without the repository writes
and without the periodicity label of `temporal_data` (not consumed by any
claim).  The source's `date_range` is last-minus-first of the group sorted
by date, which equals max-minus-min. -/
def detectRecurringPatterns (uid : String) (txns : List Txn) : List Pattern :=
  let recurTxns := txns.filter
    (fun t => t.is_expense && t.isRecurring && t.isOptimizableRecurring)
  let gids := (recurTxns.filterMap (·.recurrenceGroupId)).dedup
  gids.filterMap (fun gid =>
    let group := recurTxns.filter (fun t => t.recurrenceGroupId = some gid)
    if 2 ≤ group.length then
      let total := (group.map (·.amount)).sum
      let avg := total / group.length
      let freq : ℚ :=
        if 2 ≤ group.length then
          let dr0 := listMaxZ (group.map (·.date)) - listMinZ (group.map (·.date))
          let dr : ℤ := if dr0 = 0 then 1 else dr0
          (group.length : ℚ) / ((dr : ℚ) / 30)
        else 1
      let monthly := avg * freq * (3/10)
      some { user_id := uid
             ptype := "recurring"
             category := (group.map (·.category)).headD ("")
             metrics := { frequency := freq, totalAmount := total,
                          averageAmount := avg, deviation := 0,
                          confidence := 9/10 }
             savings_potential := { estimatedMonthly := monthly,
                                    estimatedYearly := monthly * 12,
                                    optimizationPercentage := 30,
                                    calculationMethod := "subscription_optimization" }
             related_transactions := group.map (·.tid) }
    else none)

/-- `high_deviation_factor` from the analysis-service config. -/
def highDeviationFactor : ℚ := 3/2

/-- `_analyze_day_of_week_patterns(user_id, transactions)`
(transaction_analysis_service.py:638-734), without the repository writes.
Transactions are grouped by the `dayOfWeek` metadata (skipping those where
it is `None`); with fewer than 3 distinct days no pattern is produced;
otherwise one `temporal` pattern per day whose per-transaction average
exceeds `high_deviation_factor` times the mean of the per-day averages. -/
def analyzeDayOfWeekPatterns (uid : String) (txns : List Txn) : List Pattern :=
  let withDay := txns.filter (fun t => t.dayOfWeek.isSome)
  let days := (withDay.filterMap (·.dayOfWeek)).dedup
  if days.length < 3 then []
  else
    let avgOf := fun (d : ℤ) =>
      let g := withDay.filter (fun t => t.dayOfWeek = some d)
      listMean (g.map (·.amount))
    let overallAvg := listMean (days.map avgOf)
    days.filterMap (fun d =>
      let g := withDay.filter (fun t => t.dayOfWeek = some d)
      let dayAvg := avgOf d
      if overallAvg * highDeviationFactor < dayAvg then
        let monthly := (dayAvg - overallAvg) * 4
        some { user_id := uid
               ptype := "temporal"
               category := "multiple"
               metrics := { frequency := 4, totalAmount := (g.map (·.amount)).sum,
                            averageAmount := dayAvg,
                            deviation := dayAvg / overallAvg,
                            confidence := 3/4 }
               savings_potential := { estimatedMonthly := monthly,
                                      estimatedYearly := monthly * 12,
                                      optimizationPercentage :=
                                        ⌊((dayAvg - overallAvg) / dayAvg) * 100⌋,
                                      calculationMethod := "day_of_week_optimization" }
               related_transactions := g.map (·.tid) }
      else none)

/-- `_analyze_time_of_day_patterns(user_id, transactions)`
(transaction_analysis_service.py:736-838), without the repository writes.
The source groups with `if time_of_day:` (Python truthiness), so a missing
or empty `timeOfDay` is skipped. -/
def analyzeTimeOfDayPatterns (uid : String) (txns : List Txn) : List Pattern :=
  let withTime := txns.filter (fun t => (t.timeOfDay.getD ("")) ≠ "")
  let periods := (withTime.filterMap (·.timeOfDay)).dedup
  if periods.length < 2 then []
  else
    let avgOf := fun (per : String) =>
      let g := withTime.filter (fun t => t.timeOfDay = some per)
      listMean (g.map (·.amount))
    let overallAvg := listMean (periods.map avgOf)
    periods.filterMap (fun per =>
      let g := withTime.filter (fun t => t.timeOfDay = some per)
      let periodAvg := avgOf per
      if overallAvg * highDeviationFactor < periodAvg then
        let monthly := (periodAvg - overallAvg) * 30 / periods.length
        some { user_id := uid
               ptype := "temporal"
               category := "multiple"
               metrics := { frequency := 30, totalAmount := (g.map (·.amount)).sum,
                            averageAmount := periodAvg,
                            deviation := periodAvg / overallAvg,
                            confidence := 7/10 }
               savings_potential := { estimatedMonthly := monthly,
                                      estimatedYearly := monthly * 12,
                                      optimizationPercentage :=
                                        ⌊((periodAvg - overallAvg) / periodAvg) * 100⌋,
                                      calculationMethod := "time_of_day_optimization" }
               related_transactions := g.map (·.tid) }
      else none)

/-- `_detect_temporal_patterns(user_id, transactions, historical_transactions)`
(transaction_analysis_service.py:571-636), without the repository writes:
current and historical transactions are combined (historical ones whose id
already occurs in the current batch are dropped), only expenses are kept,
and with fewer than `2 × min_transactions_for_pattern = 6` expenses no
pattern is produced. -/
def detectTemporalPatterns (uid : String) (txns hist : List Txn) : List Pattern :=
  let allTxns := txns ++ hist.filter (fun h => ¬ txns.any (fun t => t.tid = h.tid))
  let expenses := allTxns.filter (·.is_expense)
  if expenses.length < 3 * 2 then []
  else analyzeDayOfWeekPatterns uid expenses ++ analyzeTimeOfDayPatterns uid expenses

/-- The historical per-category monthly average of
`_detect_category_deviations` (transaction_analysis_service.py:874-899):
`none` when the category has no historical expenses or their date range is
under 7 days. -/
def historicalMonthlyAvg (hist : List Txn) (cat : String) : Option ℚ :=
  let g := (hist.filter (·.is_expense)).filter (fun t => t.category = cat)
  if g.isEmpty then none
  else
    let dr := listMaxZ (g.map (·.date)) - listMinZ (g.map (·.date))
    if dr < 7 then none
    else
      let months := max ((dr : ℚ) / 30) 1
      some ((g.map (·.amount)).sum / months)

/-- `_detect_category_deviations(user_id, transactions, historical_transactions)`
(transaction_analysis_service.py:840-986), without the repository writes. -/
def detectCategoryDeviations (uid : String) (txns hist : List Txn) : List Pattern :=
  let cur := txns.filter (·.is_expense)
  let cats := (cur.map (·.category)).dedup
  cats.filterMap (fun cat =>
    let group := cur.filter (fun t => t.category = cat)
    match historicalMonthlyAvg hist cat with
    | none => none
    | some histMonthly =>
      if group.length < 2 then none
      else
        let total := (group.map (·.amount)).sum
        let dr := max (listMaxZ (group.map (·.date)) - listMinZ (group.map (·.date))) 1
        let projected := total * (30 / (dr : ℚ))
        if 0 < histMonthly then
          let devRatio := projected / histMonthly
          if highDeviationFactor < devRatio then
            let monthly := projected - histMonthly
            some { user_id := uid
                   ptype := "category_deviation"
                   category := cat
                   metrics := { frequency := 0, totalAmount := total,
                                averageAmount := total / group.length,
                                deviation := devRatio,
                                confidence := 8/10 }
                   savings_potential := { estimatedMonthly := monthly,
                                          estimatedYearly := monthly * 12,
                                          optimizationPercentage :=
                                            ⌊(monthly / projected) * 100⌋,
                                          calculationMethod := "historical_comparison" }
                   related_transactions := group.map (·.tid) }
          else none
        else none)

/-- `RecommendationService._calculate_priority(pattern)`
(recommendation_service.py:448-486). -/
def calculatePriority (p : Pattern) : ℤ :=
  let base : ℤ := 5
  let m := p.savings_potential.estimatedMonthly
  let afterSavings : ℤ :=
    if 50000 < m then base + 3
    else if 20000 < m then base + 2
    else if 5000 < m then base + 1
    else base
  let c := p.metrics.confidence
  let afterConfidence : ℤ :=
    if 9/10 < c then afterSavings + 1
    else if c < 3/5 then afterSavings - 1
    else afterSavings
  let afterType : ℤ :=
    if p.ptype = "category_deviation" then afterConfidence + 1
    else if p.ptype = "recurring" then afterConfidence + 1
    else afterConfidence
  max 1 (min 10 afterType)

/-- A `Recommendation` (models/recommendation_model.py), with the
`user_interaction` map flattened into fields.  Timestamps are rationals
measured in days. -/
structure Reco where
  rid : String
  user_id : String
  pattern_id : String
  created_at : ℚ
  expires_at : ℚ
  last_shown_at : Option ℚ
  show_count : ℕ
  status : String
  priority : ℤ
  seen : Bool
  dismissed : Bool
  dismissReason : Option String
  savedForLater : Bool
  actionTaken : Bool
  deriving Repr, DecidableEq

/-- `Recommendation.is_expired()` (recommendation_model.py:161-168):
`datetime.now() > self.expires_at`. -/
def isExpired (r : Reco) (now : ℚ) : Bool := decide (r.expires_at < now)

/-- `Recommendation.should_show()` (recommendation_model.py:170-192). -/
def shouldShow (r : Reco) (now : ℚ) : Bool :=
  if isExpired r now then false
  else if r.status = "dismissed" ∨ r.status = "acted_upon" ∨ r.status = "expired" then false
  else if r.dismissed ∨ r.actionTaken then false
  else if 3 < r.show_count then
    match r.last_shown_at with
    | some t => if now - t < 7 then false else true
    | none => true
  else true

/-- A call to `should_show` as a state transformer on the recommendation:
the method only reads fields (recommendation_model.py:170-192 contains no
assignment), so the record comes back unchanged alongside the verdict. -/
def shouldShowCall (r : Reco) (now : ℚ) : Bool × Reco := (shouldShow r now, r)

/-- `RecommendationRepository.mark_as_shown` (recommendation_repository.py:64-104)
applied to a found recommendation: updates `last_shown_at`, `show_count`,
`user_interaction.seen`, and sets `status` to `"shown"` only when it was
`"pending"`. -/
def markAsShownRec (r : Reco) (now : ℚ) : Reco :=
  { r with last_shown_at := some now
           show_count := r.show_count + 1
           seen := true
           status := if r.status = "pending" then "shown" else r.status }

/-- The `interaction_data` dictionary passed to
`RecommendationRepository.update_user_interaction`; a `none` field models
an absent key. -/
structure InteractionData where
  dismissed : Option Bool := none
  dismissReason : Option String := none
  actionTaken : Option Bool := none
  savedForLater : Option Bool := none
  deriving Repr, DecidableEq

/-- `RecommendationRepository.update_user_interaction`
(recommendation_repository.py:106-141) applied to one recommendation:
copies the given `user_interaction` fields and forces `status` to
`"dismissed"` when `dismissed is True`, else to `"acted_upon"` when
`actionTaken is True`. -/
def updateUserInteraction (r : Reco) (d : InteractionData) : Reco :=
  let r1 := { r with dismissed := d.dismissed.getD r.dismissed
                     dismissReason :=
                       match d.dismissReason with
                       | some s => some s
                       | none => r.dismissReason
                     actionTaken := d.actionTaken.getD r.actionTaken
                     savedForLater := d.savedForLater.getD r.savedForLater }
  if d.dismissed = some true then { r1 with status := "dismissed" }
  else if d.actionTaken = some true then { r1 with status := "acted_upon" }
  else r1

/-- The per-recommendation effect of
`RecommendationRepository.expire_old_recommendations`
(recommendation_repository.py:186-224) for one of the user's
recommendations: those with `expires_at < now` and a status other than
`"expired"` are moved to `"expired"`. -/
def expireStep (now : ℚ) (r : Reco) : Reco :=
  if r.expires_at < now ∧ r.status ≠ "expired" then { r with status := "expired" }
  else r

/-- The effect of `expire_old_recommendations(user_id)` on one stored
recommendation: only the user's recommendations are fetched and updated,
all others are left alone. -/
def expireUserStep (uid : String) (now : ℚ) (r : Reco) : Reco :=
  if r.user_id = uid then expireStep now r else r

/-- `expire_old_recommendations(user_id)` over the stored recommendation
list. -/
def expireOldRecommendations (uid : String) (now : ℚ) (recs : List Reco) : List Reco :=
  recs.map (expireUserStep uid now)

/-- The pattern types `_create_recommendation_from_pattern`
(recommendation_service.py:101-126) dispatches on; any other type is
skipped with a warning. -/
def supportedPatternType (p : Pattern) : Bool :=
  p.ptype = "micro_expense" || p.ptype = "temporal" ||
  p.ptype = "recurring" || p.ptype = "category_deviation"

/-- `_create_recommendation_from_pattern(pattern)`
(recommendation_service.py:101-446) reduced to the fields of the created
`Recommendation` the lifecycle reads: every builder constructs it with
`user_id=pattern.user_id`, `pattern_id=pattern.id`,
`created_at=datetime.now()`, the model defaults
`expires_at = created_at + 30 days`, `show_count = 0`,
`status = "pending"`, untouched interaction flags, and
`priority=_calculate_priority(pattern)`; unsupported types yield `None`. -/
def createRecommendationFromPattern (now : ℚ) (p : Pattern) : Option Reco :=
  if supportedPatternType p then
    some { rid := ""
           user_id := p.user_id
           pattern_id := p.pid
           created_at := now
           expires_at := now + 30
           last_shown_at := none
           show_count := 0
           status := "pending"
           priority := calculatePriority p
           seen := false
           dismissed := false
           dismissReason := none
           savedForLater := false
           actionTaken := false }
  else none

/-- The exact-match filter of the `query({"user_id": uid,
"pattern_id": pid, "status": "pending"})` existence check in
`generate_recommendations` (recommendation_service.py:62-66). -/
def pendingPred (uid pid : String) (r : Reco) : Bool :=
  r.user_id = uid && r.pattern_id = pid && r.status = "pending"

/-- The existence check of `generate_recommendations`: the pending-query
result is nonempty. -/
def hasPendingFor (recs : List Reco) (uid pid : String) : Bool :=
  recs.any (pendingPred uid pid)

/-- The number of stored pending recommendations for one
`(user_id, pattern_id)` pair. -/
def pendingCount (recs : List Reco) (uid pid : String) : ℕ :=
  (recs.filter (pendingPred uid pid)).length

/-- The claimed store invariant: at most one pending recommendation per
`(user_id, pattern_id)` pair. -/
def atMostOnePending (recs : List Reco) : Prop :=
  ∀ uid pid, pendingCount recs uid pid ≤ 1

/-- Auxiliary store invariant: every stored pending recommendation of the
user has not yet passed its expiry date. -/
def goodPending (uid : String) (now : ℚ) (recs : List Reco) : Prop :=
  ∀ r ∈ recs, r.user_id = uid → r.status = "pending" → ¬ r.expires_at < now

/-- The per-pattern loop of `generate_recommendations`
(recommendation_service.py:59-80): for each active pattern, skip when a
pending recommendation for `(uid, pattern.id)` already exists in the
store, otherwise create and persist one, counting the creations. -/
def generateLoop (uid : String) (now : ℚ) :
    List Pattern → List Reco → List Reco × ℕ
  | [], recs => (recs, 0)
  | p :: ps, recs =>
    if hasPendingFor recs uid p.pid then generateLoop uid now ps recs
    else
      match createRecommendationFromPattern now p with
      | some r =>
        let rest := generateLoop uid now ps (recs ++ [r])
        (rest.1, rest.2 + 1)
      | none => generateLoop uid now ps recs

/-- `generate_recommendations(user_id)` (recommendation_service.py:33-99)
as a transformer of the stored recommendation list: first expire the
user's stale recommendations, then run the per-pattern loop over the
user's active patterns; returns the new store and the number of
recommendations generated. -/
def generateRecommendations (uid : String) (now : ℚ) (patterns : List Pattern)
    (recs : List Reco) : List Reco × ℕ :=
  generateLoop uid now patterns (expireOldRecommendations uid now recs)

/-- The outcome of one detector call inside `analyze_user_transactions`:
either the produced patterns or a raised exception's message. -/
def DetectorOutcome := Except String (List Pattern)

/-- The structured result of `analyze_user_transactions`
(transaction_analysis_service.py:66-161) together with the 1-based
indices of the detectors that were actually invoked (micro_expense = 1,
recurring = 2, temporal = 3, category_deviation = 4). -/
structure AnalysisOutcome where
  status : String
  patternsFound : ℕ
  transactionsAnalyzed : ℕ
  detectorsRun : List ℕ
  deriving Repr, DecidableEq

/-- `analyze_user_transactions(user_id)`
(transaction_analysis_service.py:66-161) with the four detector calls
abstracted as outcomes.  The whole body sits in a single `try`: the first
detector that raises sends control to the `except` handler, which returns
`{"status": "error"}`; detectors after it are never invoked.  With fewer
historical transactions than `min_transactions_for_pattern = 3` the
temporal and deviation detectors are skipped (`limited_analysis`). -/
def analyzeUserTransactions (txnCount histCount : ℕ)
    (dMicro dRecurring dTemporal dDeviation : DetectorOutcome) : AnalysisOutcome :=
  if txnCount = 0 then
    { status := "success", patternsFound := 0, transactionsAnalyzed := 0,
      detectorsRun := [] }
  else
    let limitedAnalysis := histCount < 3
    match dMicro with
    | .error _ =>
      { status := "error", patternsFound := 0, transactionsAnalyzed := 0,
        detectorsRun := [1] }
    | .ok p1 =>
      match dRecurring with
      | .error _ =>
        { status := "error", patternsFound := 0, transactionsAnalyzed := 0,
          detectorsRun := [1, 2] }
      | .ok p2 =>
        if limitedAnalysis then
          { status := "success", patternsFound := p1.length + p2.length,
            transactionsAnalyzed := txnCount, detectorsRun := [1, 2] }
        else
          match dTemporal with
          | .error _ =>
            { status := "error", patternsFound := 0, transactionsAnalyzed := 0,
              detectorsRun := [1, 2, 3] }
          | .ok p3 =>
            match dDeviation with
            | .error _ =>
              { status := "error", patternsFound := 0, transactionsAnalyzed := 0,
                detectorsRun := [1, 2, 3, 4] }
            | .ok p4 =>
              { status := "success",
                patternsFound := p1.length + p2.length + p3.length + p4.length,
                transactionsAnalyzed := txnCount, detectorsRun := [1, 2, 3, 4] }

/-- Modelled from the spec: the variant of the periodicity step in which
"zero-day gaps are treated as 1 day"; identical to `gapsVerdict` except
that every zero gap is replaced by a 1-day gap before the interval
statistics.  No such replacement exists in `_check_recurring_pattern`;
this definition exists only to compare the spec's description with the
code. -/
def gapsVerdictFloored (ts : List Txn) : Option Bool :=
  if 3 ≤ ts.length then
    let gaps := (dayGaps ts).map (fun g => if g = 0 then 1 else g)
    let gq : List ℚ := intCastList gaps
    let meanInterval := listMean gq
    if meanInterval ≤ 0 then some false
    else if gaps.length = 2 then
      some (decide (0 < listMinZ gaps ∧ listMaxZ gaps < 2 * listMinZ gaps))
    else if 4 * sampleVariance gq > meanInterval ^ 2 then some false
    else none
  else none

/-- Modelled from the spec: `_check_recurring_pattern` as it would behave
if zero-day gaps were treated as 1-day gaps (see `gapsVerdictFloored`). -/
def checkRecurringPatternFloored (ts : List Txn) : Bool :=
  if ts.length < 2 then false
  else
    match gapsVerdictFloored ts with
    | some b => b
    | none => amountsVerdict ts

/-- The claim's rejection condition for a single-gap group,
`max(gap)/min(gap) ≥ 2.0`, read with the source's own convention that a
non-positive minimum gap yields an infinite ratio
(`ratio = max(intervals) / min(intervals) if min(intervals) > 0 else
float('inf')`, transaction_analysis_service.py:302). -/
def specGapRatioAtLeastTwo (gaps : List ℤ) : Prop :=
  ¬ 0 < listMinZ gaps ∨ 2 * listMinZ gaps ≤ listMaxZ gaps

/-- Test fixture: a transaction with the given id, amount and date, in a
fixed category, with no enrichment metadata set. -/
def mkTxn (tid : Nat) (amount : ℚ) (date : ℤ) : Txn :=
  { tid := tid, amount := amount, date := date, category := "cafe",
    description := "latte", is_expense := true, isRecurring := false,
    recurrenceGroupId := none, isOptimizableRecurring := false,
    dayOfWeek := none, timeOfDay := none }

/-- Two equal-amount transactions on the same day: a similarity group of
exactly two transactions with a single zero-day gap. -/
def twoSameDayTxns : List Txn := [mkTxn 1 100 0, mkTxn 2 100 0]

/-- Three equal-amount transactions whose last two fall one day apart and
whose first two fall on the same day: day-gaps `[0, 1]`. -/
def threeTxnsSameDayPair : List Txn := [mkTxn 1 100 0, mkTxn 2 100 0, mkTxn 3 100 1]

/-- Three equal-amount transactions with day-gaps `[1, 10]`, whose
relative gap standard deviation exceeds 0.5. -/
def threeTxnsErraticGaps : List Txn := [mkTxn 1 100 0, mkTxn 2 100 1, mkTxn 3 100 11]

/-- Three expenses of 10,000 in one category on consecutive days: a
micro-expense group meeting both the size and the 30,000 total bound. -/
def microWitnessTxns : List Txn := [mkTxn 1 10000 0, mkTxn 2 10000 1, mkTxn 3 10000 2]

/-- The claim's savings tier: +3 when estimated monthly savings exceed
50,000, else +2 when they exceed 20,000, else +1 when they exceed 5,000
(mutually exclusive, highest applicable tier wins). -/
def specSavingsTier (m : ℚ) : ℤ :=
  if 50000 < m then 3 else if 20000 < m then 2 else if 5000 < m then 1 else 0

/-- The claim's confidence adjustment: +1 when confidence exceeds 0.9,
−1 when it is below 0.6. -/
def specConfidenceAdj (c : ℚ) : ℤ :=
  if 9/10 < c then 1 else if c < 3/5 then -1 else 0

/-- The claim's type adjustment: +1 when the pattern type is
`category_deviation` or `recurring`. -/
def specTypeAdj (t : String) : ℤ :=
  if t = "category_deviation" ∨ t = "recurring" then 1 else 0

/-- Clamping an integer to the range [1, 10]. -/
def specClamp (x : ℤ) : ℤ := max 1 (min 10 x)

/-- Test fixture: a recommendation in its default freshly-created shape. -/
def mkReco (uid pid : String) (createdAt : ℚ) : Reco :=
  { rid := "r1", user_id := uid, pattern_id := pid, created_at := createdAt,
    expires_at := createdAt + 30, last_shown_at := none, show_count := 0,
    status := "pending", priority := 5, seen := false, dismissed := false,
    dismissReason := none, savedForLater := false, actionTaken := false }

/-- Test fixture: a dismissed recommendation whose expiry date (day 10)
has passed at day 20. -/
def dismissedStaleReco : Reco :=
  { mkReco ("u") ("p") 0 with
    expires_at := 10
    status := "dismissed"
    dismissed := true
    seen := true }

/-- Scaling every transaction amount of a group by a constant, leaving
all other fields unchanged. -/
def scaleAmounts (c : ℚ) (ts : List Txn) : List Txn :=
  ts.map (fun t => { t with amount := c * t.amount })

/-- C8: the synthesized recommendation priority equals base 5 plus exactly
one of +3 (estimatedMonthly > 50,000), +2 (> 20,000), +1 (> 5,000) with
the highest applicable tier winning, plus +1 if confidence > 0.9 or −1 if
confidence < 0.6, plus +1 if the pattern type is `category_deviation` or
`recurring`, clamped to the range [1, 10]. -/
theorem calculatePriority_matches_spec (p : Pattern) :
    calculatePriority p =
      specClamp (5 + specSavingsTier p.savings_potential.estimatedMonthly
        + specConfidenceAdj p.metrics.confidence + specTypeAdj p.ptype) := by
  simp only [calculatePriority, specClamp, specSavingsTier, specConfidenceAdj, specTypeAdj]
  split_ifs <;> first | rfl | omega | tauto

/-- C6: `should_show` returns false for every recommendation whose
`expires_at` is earlier than now, regardless of all other fields; it also
returns false whenever `show_count > 3` and `last_shown_at` is within the
last 7 days; and it mutates no field of the recommendation, so repeated
calls without state mutation return the same answer. -/
theorem shouldShow_suppression (r : Reco) (now : ℚ) :
    (r.expires_at < now → shouldShow r now = false) ∧
    (∀ t, r.last_shown_at = some t → 3 < r.show_count → now - t < 7 →
      shouldShow r now = false) ∧
    ((shouldShowCall r now).2 = r ∧
      shouldShow (shouldShowCall r now).2 now = shouldShow r now) :=
  by
  refine ⟨?_, ?_, rfl, rfl⟩
  · intro h
    simp only [shouldShow, isExpired]
    rw [if_pos (by simpa using h)]
  · intro t ht hcount hrecent
    simp only [shouldShow, isExpired]
    split_ifs <;> simp_all

/-- Witness for `shouldShow_suppression`: a recommendation created at day 0
(expiring at day 30) evaluated at day 40, and one shown 5 times with the
last show 2 days ago. -/
theorem shouldShow_suppression_witness :
    shouldShow (mkReco ("u") ("p") 0) 40 = false ∧
    shouldShow { mkReco ("u") ("p") 0 with
                 show_count := 5
                 last_shown_at := some 8 } 10 = false := by
  constructor
  · exact (shouldShow_suppression (mkReco ("u") ("p") 0) 40).1 (by norm_num [mkReco])
  · exact (shouldShow_suppression _ 10).2.1 8 rfl (by norm_num) (by norm_num)

/-- C7 fails on the code: lazy expiry moves a recommendation that already
has the terminal status `dismissed` to the different status `expired`
(`expire_old_recommendations` filters on `status != "expired"` only,
recommendation_repository.py:202-205). -/
theorem terminal_status_counterexample :
    dismissedStaleReco.status = "dismissed" ∧
    dismissedStaleReco.expires_at < 20 ∧
    (expireStep 20 dismissedStaleReco).status = "expired" := by
  refine ⟨rfl, by norm_num [dismissedStaleReco, mkReco], ?_⟩
  rw [expireStep,
    if_pos (by refine ⟨by norm_num [dismissedStaleReco, mkReco], by simp [dismissedStaleReco, mkReco]⟩)]

/-- C7 amended: `mark_as_shown` rewrites the status only from `pending`,
so it preserves every terminal status; lazy expiry leaves an already
`expired` status alone but moves any other status — including the terminal
`dismissed` and `acted_upon` — to `expired` once `expires_at` has passed;
and the dismiss / action-taken interactions overwrite the status
unconditionally, terminal or not. -/
theorem terminal_status_amended (r : Reco) (now : ℚ) (d : InteractionData) :
    (r.status ≠ "pending" → (markAsShownRec r now).status = r.status) ∧
    (r.status = "expired" → (expireStep now r).status = r.status) ∧
    (r.expires_at < now → r.status ≠ "expired" →
      (expireStep now r).status = "expired") ∧
    (d.dismissed = some true → (updateUserInteraction r d).status = "dismissed") ∧
    (¬ d.dismissed = some true → d.actionTaken = some true →
      (updateUserInteraction r d).status = "acted_upon") := by
  refine ⟨?_, ?_, ?_, ?_, ?_⟩
  · intro h
    simp [markAsShownRec, h]
  · intro h
    simp [expireStep, h]
  · intro h1 h2
    simp [expireStep, h1, h2]
  · intro h
    simp [updateUserInteraction, h]
  · intro h1 h2
    simp [updateUserInteraction, h1, h2]

/-- Witness for `terminal_status_amended`: a shown recommendation keeps its
status under `mark_as_shown`; an expired one stays expired under lazy
expiry; a stale pending one expires; a dismissal and an action-taken
interaction each overwrite a terminal status. -/
theorem terminal_status_amended_witness :
    (markAsShownRec { mkReco ("u") ("p") 0 with status := "acted_upon" } 5).status
        = "acted_upon" ∧
    (expireStep 40 { mkReco ("u") ("p") 0 with status := "expired" }).status
        = "expired" ∧
    (expireStep 40 (mkReco ("u") ("p") 0)).status = "expired" ∧
    (updateUserInteraction dismissedStaleReco
        { dismissed := some true }).status = "dismissed" ∧
    (updateUserInteraction { mkReco ("u") ("p") 0 with status := "expired" }
        { actionTaken := some true }).status = "acted_upon" := by
  refine ⟨?_, ?_, ?_, ?_, ?_⟩
  · exact (terminal_status_amended _ 5 {}).1 (by simp [mkReco])
  · exact (terminal_status_amended _ 40 {}).2.1 rfl
  · exact (terminal_status_amended _ 40 {}).2.2.1 (by norm_num [mkReco]) (by simp [mkReco])
  · exact (terminal_status_amended _ 0 _).2.2.2.1 rfl
  · exact (terminal_status_amended _ 0 _).2.2.2.2 (by simp) rfl

/-- C2 fails on the code: `analyze_user_transactions` wraps the whole pass
in a single try/except, so when the micro-expense detector raises, the
remaining three detectors never run and the pass returns status `error`
instead of completing with the failed detector contributing zero
patterns. -/
theorem detector_isolation_counterexample :
    (analyzeUserTransactions 1 10 (.error ("boom")) (.ok []) (.ok []) (.ok [])).status
        = "error" ∧
    2 ∉ (analyzeUserTransactions 1 10 (.error ("boom"))
          (.ok []) (.ok []) (.ok [])).detectorsRun := by
  exact ⟨rfl, by simp [analyzeUserTransactions]⟩

/-- C2 amended: when any of the four detectors raises during
`analyze_user_transactions`, the exception is caught at the whole-pass
level: the entry point still returns a structured result, but with status
`error`, and the detectors after the failing one are never invoked —
stated here for a failure in each of the four positions, the temporal and
deviation positions under the historical-data precondition
(`3 ≤ histCount`) without which those detectors are skipped rather than
invoked; for all detector outcomes the returned status is either
`success` or `error`, so no exception escapes the orchestrator. -/
theorem detector_failure_aborts_pass (txnCount histCount : ℕ) (e : String)
    (p1 p2 p3 : List Pattern) (d2 d3 d4 : DetectorOutcome) :
    (txnCount ≠ 0 →
      ((analyzeUserTransactions txnCount histCount (.error e) d2 d3 d4).status = "error" ∧
       (analyzeUserTransactions txnCount histCount (.error e) d2 d3 d4).detectorsRun
         = [1]) ∧
      ((analyzeUserTransactions txnCount histCount (.ok p1) (.error e) d3 d4).status
         = "error" ∧
       (analyzeUserTransactions txnCount histCount (.ok p1) (.error e) d3 d4).detectorsRun
         = [1, 2]) ∧
      (3 ≤ histCount →
        ((analyzeUserTransactions txnCount histCount
            (.ok p1) (.ok p2) (.error e) d4).status = "error" ∧
         (analyzeUserTransactions txnCount histCount
            (.ok p1) (.ok p2) (.error e) d4).detectorsRun = [1, 2, 3]) ∧
        ((analyzeUserTransactions txnCount histCount
            (.ok p1) (.ok p2) (.ok p3) (.error e)).status = "error" ∧
         (analyzeUserTransactions txnCount histCount
            (.ok p1) (.ok p2) (.ok p3) (.error e)).detectorsRun = [1, 2, 3, 4]))) ∧
    (∀ d1 : DetectorOutcome,
      (analyzeUserTransactions txnCount histCount d1 d2 d3 d4).status = "success" ∨
      (analyzeUserTransactions txnCount histCount d1 d2 d3 d4).status = "error") := by
  constructor
  · intro h
    refine ⟨?_, ?_, ?_⟩
    · simp [analyzeUserTransactions, h]
    · simp [analyzeUserTransactions, h]
    · intro hh
      have hnl : ¬ histCount < 3 := Nat.not_lt.mpr hh
      constructor
      · simp [analyzeUserTransactions, h, hnl]
      · simp [analyzeUserTransactions, h, hnl]
  · intro d1
    rcases d1 with ps | err <;> rcases d2 with qs | err2 <;>
      rcases d3 with rs | err3 <;> rcases d4 with ss | err4 <;>
      simp only [analyzeUserTransactions] <;> split_ifs <;> simp

/-- Witness for `detector_failure_aborts_pass` with one transaction to
analyze and enough historical data, exercising a failure in each of the
four detector positions. -/
theorem detector_failure_aborts_pass_witness :
    (((analyzeUserTransactions 1 10 (.error ("boom")) (.ok []) (.ok []) (.ok [])).status
        = "error" ∧
      (analyzeUserTransactions 1 10 (.error ("boom"))
        (.ok []) (.ok []) (.ok [])).detectorsRun = [1]) ∧
     ((analyzeUserTransactions 1 10 (.ok []) (.error ("boom")) (.ok []) (.ok [])).status
        = "error" ∧
      (analyzeUserTransactions 1 10 (.ok []) (.error ("boom"))
        (.ok []) (.ok [])).detectorsRun = [1, 2]) ∧
     ((analyzeUserTransactions 1 10 (.ok []) (.ok []) (.error ("boom")) (.ok [])).status
        = "error" ∧
      (analyzeUserTransactions 1 10 (.ok []) (.ok []) (.error ("boom"))
        (.ok [])).detectorsRun = [1, 2, 3]) ∧
     ((analyzeUserTransactions 1 10 (.ok []) (.ok []) (.ok []) (.error ("boom"))).status
        = "error" ∧
      (analyzeUserTransactions 1 10 (.ok []) (.ok []) (.ok [])
        (.error ("boom"))).detectorsRun = [1, 2, 3, 4])) ∧
    ((analyzeUserTransactions 1 10 (.ok []) (.ok []) (.ok []) (.ok [])).status = "success" ∨
     (analyzeUserTransactions 1 10 (.ok []) (.ok []) (.ok []) (.ok [])).status = "error") := by
  have hmain := detector_failure_aborts_pass 1 10 ("boom") [] [] []
    (.ok []) (.ok []) (.ok [])
  have habort := hmain.1 (by norm_num)
  exact ⟨⟨habort.1, habort.2.1, (habort.2.2 (by norm_num)).1,
    (habort.2.2 (by norm_num)).2⟩, hmain.2 (.ok [])⟩

theorem dayGaps_length (ts : List Txn) : (dayGaps ts).length = ts.length - 1 := by
  simp [dayGaps]

theorem listMean_pair (a b : ℚ) : listMean [a, b] = (a + b) / 2 := by
  norm_num [listMean]

theorem sampleVariance_pair (a b : ℚ) : sampleVariance [a, b] = (a - b) ^ 2 / 2 := by
  simp [sampleVariance, listMean_pair]
  ring

theorem listMinZ_pair (a b : ℤ) : listMinZ [a, b] = min a b := rfl

theorem listMaxZ_pair (a b : ℤ) : listMaxZ [a, b] = max a b := rfl

/-- C10 fails on the code: `_check_recurring_pattern` does not replace
zero-day gaps by 1-day gaps, and a group whose two first transactions
fall on the same day is rejected through the infinite-ratio branch, while
the spec's described treatment (gaps floored to 1 day) would accept it. -/
theorem zero_gap_counterexample :
    dayGaps threeTxnsSameDayPair = [0, 1] ∧
    checkRecurringPattern threeTxnsSameDayPair = false ∧
    checkRecurringPatternFloored threeTxnsSameDayPair = true := by
  refine ⟨rfl, ?_, ?_⟩
  · norm_num [checkRecurringPattern, gapsVerdict, amountsVerdict, dayGaps, listMean,
      intCastList, sampleVariance, listMinZ, listMaxZ, threeTxnsSameDayPair, mkTxn]
  · norm_num [checkRecurringPatternFloored, gapsVerdictFloored, amountsVerdict, dayGaps,
      listMean, intCastList, sampleVariance, listMinZ, listMaxZ, threeTxnsSameDayPair, mkTxn]

/-- C10 amended: zero-day gaps are kept as 0 days; division by zero is
avoided instead by rejecting the group when the mean gap is not positive
and by treating a zero minimum gap as an infinite max/min ratio, so a
three-transaction group one of whose gaps is zero — in particular one
with two same-day transactions — is always rejected. -/
theorem zero_gap_group_rejected (ts : List Txn) (h3 : ts.length = 3)
    (h0 : (0 : ℤ) ∈ dayGaps ts) : checkRecurringPattern ts = false := by
  have hlen : (dayGaps ts).length = 2 := by rw [dayGaps_length, h3]
  obtain ⟨a, b, hab⟩ := List.length_eq_two.mp hlen
  have hne2 : ¬ ts.length < 2 := by omega
  rw [checkRecurringPattern, if_neg hne2]
  suffices hgv : gapsVerdict ts = some false by rw [hgv]
  rw [gapsVerdict, if_pos (by omega : 3 ≤ ts.length)]
  dsimp only
  rw [hab] at h0 ⊢
  simp only [List.mem_cons, List.not_mem_nil, or_false] at h0
  by_cases hm : listMean (intCastList [a, b]) ≤ 0
  · rw [if_pos hm]
  · rw [if_neg hm, if_pos (show ([a, b] : List ℤ).length = 2 from rfl)]
    have hmin : ¬ ((0 : ℤ) < listMinZ [a, b] ∧ listMaxZ [a, b] < 2 * listMinZ [a, b]) := by
      rw [listMinZ_pair]
      rintro ⟨hpos, -⟩
      rcases h0 with h | h <;> omega
    rw [decide_eq_false hmin]

/-- Witness for `zero_gap_group_rejected` at the concrete three-transaction
group with a same-day pair. -/
theorem zero_gap_group_rejected_witness :
    checkRecurringPattern threeTxnsSameDayPair = false :=
  zero_gap_group_rejected threeTxnsSameDayPair (by decide) (by decide)

/-- C1 fails on the code: a group of exactly 2 transactions whose single
day-gap is 0 satisfies the claim's rejection condition
`max(gap)/min(gap) ≥ 2.0` (the ratio is infinite under the source's own
zero-minimum convention), yet `_check_recurring_pattern` accepts the
group: with fewer than 3 transactions no gap check runs at all
(transaction_analysis_service.py:286). -/
theorem two_txn_gap_rejection_counterexample :
    twoSameDayTxns.length = 2 ∧
    specGapRatioAtLeastTwo (dayGaps twoSameDayTxns) ∧
    checkRecurringPattern twoSameDayTxns = true := by
  refine ⟨rfl, Or.inl (by decide), ?_⟩
  norm_num [checkRecurringPattern, gapsVerdict, amountsVerdict, listMean,
    sampleVariance, twoSameDayTxns, mkTxn]

theorem two_gap_accept_small_var (x y : ℚ) (hx : 0 < x) (hxy : x ≤ y)
    (hy : y < 2 * x) : 4 * ((x - y) ^ 2 / 2) ≤ ((x + y) / 2) ^ 2 := by
  nlinarith [mul_nonneg (sub_nonneg.2 hxy) (by linarith : (0 : ℚ) ≤ 2 * x - y),
    mul_pos hx hx, sq_nonneg (x - y), sq_nonneg (x + y)]

/-- C1 amended: for groups of 3 transactions or more, recurrence is indeed
rejected whenever the relative standard deviation of the day-gaps exceeds
0.5 (expressed square-free as `4·variance > mean²`; for exactly two gaps
this follows because such gaps always fail the code's max/min < 2 ratio
test); but for groups of exactly 2 transactions no gap-based check runs
at all — the verdict is exactly the amount coefficient-of-variation
check. -/
theorem gap_consistency_rejection (ts : List Txn) :
    (3 ≤ ts.length →
      4 * sampleVariance (intCastList (dayGaps ts)) >
        listMean (intCastList (dayGaps ts)) ^ 2 →
      checkRecurringPattern ts = false) ∧
    (ts.length = 2 → checkRecurringPattern ts = amountsVerdict ts) := by
  constructor
  · intro h3 hvar
    rw [checkRecurringPattern, if_neg (by omega : ¬ ts.length < 2)]
    suffices hgv : gapsVerdict ts = some false by rw [hgv]
    rw [gapsVerdict, if_pos h3]
    dsimp only
    by_cases hm : listMean (intCastList (dayGaps ts)) ≤ 0
    · rw [if_pos hm]
    · rw [if_neg hm]
      push_neg at hm
      by_cases h2 : (dayGaps ts).length = 2
      · rw [if_pos h2]
        obtain ⟨a, b, hab⟩ := List.length_eq_two.mp h2
        rw [hab] at hvar
        have hcast : intCastList [a, b] = [(a : ℚ), (b : ℚ)] := rfl
        rw [hcast, sampleVariance_pair, listMean_pair] at hvar
        have key : ¬ ((0 : ℤ) < listMinZ (dayGaps ts) ∧
            listMaxZ (dayGaps ts) < 2 * listMinZ (dayGaps ts)) := by
          rw [hab, listMinZ_pair, listMaxZ_pair]
          rintro ⟨hmin, hmax⟩
          rcases le_total a b with hle | hle
          · rw [min_eq_left hle] at hmin hmax
            rw [max_eq_right hle] at hmax
            have hb : ((a : ℚ)) ≤ (b : ℚ) := by exact_mod_cast hle
            have ha : (0 : ℚ) < (a : ℚ) := by exact_mod_cast hmin
            have h2a : ((b : ℚ)) < 2 * (a : ℚ) := by exact_mod_cast hmax
            have := two_gap_accept_small_var (a : ℚ) (b : ℚ) ha hb h2a
            linarith
          · rw [min_eq_right hle] at hmin hmax
            rw [max_eq_left hle] at hmax
            have ha : ((b : ℚ)) ≤ (a : ℚ) := by exact_mod_cast hle
            have hb : (0 : ℚ) < (b : ℚ) := by exact_mod_cast hmin
            have h2b : ((a : ℚ)) < 2 * (b : ℚ) := by exact_mod_cast hmax
            have := two_gap_accept_small_var (b : ℚ) (a : ℚ) hb ha h2b
            nlinarith [this, hvar]
        rw [decide_eq_false key]
      · rw [if_neg h2, if_pos hvar]
  · intro h2
    rw [checkRecurringPattern, if_neg (by omega : ¬ ts.length < 2),
      gapsVerdict, if_neg (by omega : ¬ 3 ≤ ts.length)]

/-- Witness for `gap_consistency_rejection`: a three-transaction group with
day-gaps [1, 10] (relative standard deviation above 0.5) is rejected, and
a two-transaction group's verdict equals the amounts-only check. -/
theorem gap_consistency_rejection_witness :
    checkRecurringPattern threeTxnsErraticGaps = false ∧
    checkRecurringPattern twoSameDayTxns = amountsVerdict twoSameDayTxns := by
  constructor
  · exact (gap_consistency_rejection threeTxnsErraticGaps).1 (by decide)
      (by norm_num [threeTxnsErraticGaps, mkTxn, dayGaps, intCastList,
        sampleVariance, listMean])
  · exact (gap_consistency_rejection twoSameDayTxns).2 (by decide)

theorem scaleAmounts_length (c : ℚ) (ts : List Txn) :
    (scaleAmounts c ts).length = ts.length := by
  simp [scaleAmounts]

theorem dayGaps_scaleAmounts (c : ℚ) : ∀ ts : List Txn,
    dayGaps (scaleAmounts c ts) = dayGaps ts
  | [] => rfl
  | [_] => rfl
  | t1 :: t2 :: rest => by
    have ih := dayGaps_scaleAmounts c (t2 :: rest)
    show (t2.date - t1.date) :: dayGaps (scaleAmounts c (t2 :: rest))
        = (t2.date - t1.date) :: dayGaps (t2 :: rest)
    rw [ih]

theorem scaleAmounts_map_amount (c : ℚ) (ts : List Txn) :
    (scaleAmounts c ts).map (·.amount) = (ts.map (·.amount)).map (fun x => c * x) := by
  simp [scaleAmounts, List.map_map]

theorem listMean_smul (c : ℚ) (xs : List ℚ) :
    listMean (xs.map (fun x => c * x)) = c * listMean xs := by
  simp only [listMean, List.length_map]
  rw [List.sum_map_mul_left, mul_div_assoc]
  simp only [List.map_id_fun', List.map_id', id]

theorem sampleVariance_smul (c : ℚ) (xs : List ℚ) :
    sampleVariance (xs.map (fun x => c * x)) = c ^ 2 * sampleVariance xs := by
  simp only [sampleVariance, List.length_map, listMean_smul, List.map_map]
  rw [show ((fun x => (x - c * listMean xs) ^ 2) ∘ fun x => c * x)
        = fun x => c ^ 2 * (x - listMean xs) ^ 2 from by
      funext x
      simp only [Function.comp]
      ring]
  rw [List.sum_map_mul_left, mul_div_assoc]

theorem amountsVerdict_scale (c : ℚ) (hc : 0 < c) (ts : List Txn) :
    amountsVerdict (scaleAmounts c ts) = amountsVerdict ts := by
  rw [amountsVerdict, amountsVerdict]
  dsimp only
  rw [scaleAmounts_map_amount]
  generalize ts.map (·.amount) = xs
  have h1 : (xs.map (fun x => c * x)).isEmpty = xs.isEmpty := by cases xs <;> rfl
  rw [h1, listMean_smul, sampleVariance_smul]
  by_cases hxs : xs.isEmpty = true
  · rw [if_pos hxs, if_pos hxs]
  · rw [if_neg hxs, if_neg hxs]
    by_cases hm : listMean xs ≤ 0
    · rw [if_pos (by nlinarith), if_pos hm]
    · rw [if_neg (by intro h; exact hm (by nlinarith)), if_neg hm]
      refine decide_eq_decide.mpr ?_
      push_neg at hm
      constructor <;> intro h <;> nlinarith [mul_pos hc hc]

theorem gapsVerdict_scale (c : ℚ) (ts : List Txn) :
    gapsVerdict (scaleAmounts c ts) = gapsVerdict ts := by
  rw [gapsVerdict, gapsVerdict, scaleAmounts_length, dayGaps_scaleAmounts]

/-- C9: scaling every transaction amount of a candidate recurrence group
by a positive constant does not change the `isRecurring` verdict of
`_check_recurring_pattern`: the date-gap checks ignore amounts and the
amount coefficient-of-variation check is invariant under the scaling. -/
theorem checkRecurring_amount_scaling (c : ℚ) (hc : 0 < c) (ts : List Txn) :
    checkRecurringPattern (scaleAmounts c ts) = checkRecurringPattern ts := by
  rw [checkRecurringPattern, checkRecurringPattern, scaleAmounts_length,
    gapsVerdict_scale, amountsVerdict_scale c hc]

/-- Witness for `checkRecurring_amount_scaling`: doubling the amounts of a
concrete group leaves the verdict unchanged. -/
theorem checkRecurring_amount_scaling_witness :
    checkRecurringPattern (scaleAmounts 2 twoSameDayTxns)
      = checkRecurringPattern twoSameDayTxns :=
  checkRecurring_amount_scaling 2 (by norm_num) twoSameDayTxns

theorem microPatternFor_mem (uid cat : String) (txns : List Txn)
    (h1 : 3 ≤ ((txns.filter isMicroTxn).filter (fun t => t.category = cat)).length)
    (h2 : microExpenseThreshold * 3 ≤
      (((txns.filter isMicroTxn).filter (fun t => t.category = cat)).map (·.amount)).sum) :
    microPatternFor uid txns cat ∈ detectMicroExpensePatterns uid txns := by
  have hne : ∃ t ∈ (txns.filter isMicroTxn).filter (fun t => t.category = cat), True := by
    rcases hg : (txns.filter isMicroTxn).filter (fun t => t.category = cat) with _ | ⟨t, g⟩
    · rw [hg] at h1
      simp at h1
    · exact ⟨t, by rw [hg]; simp, trivial⟩
  obtain ⟨t, ht, -⟩ := hne
  have h0 := List.mem_filter.mp ht
  have hcats : cat ∈ ((txns.filter isMicroTxn).map (·.category)).dedup := by
    rw [List.mem_dedup, List.mem_map]
    refine ⟨t, h0.1, ?_⟩
    have := h0.2
    simp only [decide_eq_true_eq] at this
    exact this
  exact List.mem_filterMap.mpr ⟨cat, hcats, by
    dsimp only
    rw [if_pos h1, if_pos h2]
    rfl⟩

/-- C5: a `micro_expense` pattern is emitted for a category if and only if
the category's group of micro-expense transactions (expenses with amount
at most 10,000) has at least 3 transactions and a total of at least
30,000; in particular with a smaller total no pattern is emitted for the
category. -/
theorem micro_expense_emission_iff (uid cat : String) (txns : List Txn) :
    (∃ p ∈ detectMicroExpensePatterns uid txns,
        p.category = cat ∧ p.ptype = "micro_expense") ↔
      3 ≤ (microGroup txns cat).length ∧
        30000 ≤ ((microGroup txns cat).map (·.amount)).sum := by
  constructor
  · rintro ⟨p, hp, hcat, -⟩
    simp only [detectMicroExpensePatterns, List.mem_filterMap] at hp
    obtain ⟨c, -, hfc⟩ := hp
    by_cases h1 : 3 ≤ ((txns.filter isMicroTxn).filter (fun t => t.category = c)).length
    · rw [if_pos h1] at hfc
      by_cases h2 : microExpenseThreshold * 3 ≤
          (((txns.filter isMicroTxn).filter (fun t => t.category = c)).map (·.amount)).sum
      · rw [if_pos h2] at hfc
        injection hfc with h
        subst h
        obtain rfl : c = cat := hcat
        refine ⟨h1, ?_⟩
        have h30 : (30000 : ℚ) = microExpenseThreshold * 3 := by
          norm_num [microExpenseThreshold]
        rw [h30]
        exact h2
      · rw [if_neg h2] at hfc
        exact absurd hfc (by simp)
    · rw [if_neg h1] at hfc
      exact absurd hfc (by simp)
  · rintro ⟨hlen, hsum⟩
    have h2 : microExpenseThreshold * 3 ≤
        (((txns.filter isMicroTxn).filter (fun t => t.category = cat)).map (·.amount)).sum := by
      have h30 : microExpenseThreshold * 3 = (30000 : ℚ) := by
        norm_num [microExpenseThreshold]
      rw [h30]
      exact hsum
    have hlen2 : 3 ≤ ((txns.filter isMicroTxn).filter (fun t => t.category = cat)).length :=
      hlen
    exact ⟨microPatternFor uid txns cat, microPatternFor_mem uid cat txns hlen2 h2, rfl, rfl⟩

theorem micro_savings_eq (uid : String) (txns : List Txn) (p : Pattern)
    (hp : p ∈ detectMicroExpensePatterns uid txns) :
    p.savings_potential.estimatedYearly = p.savings_potential.estimatedMonthly * 12 := by
  simp only [detectMicroExpensePatterns, List.mem_filterMap] at hp
  obtain ⟨c, -, hfc⟩ := hp
  split_ifs at hfc <;>
    first
      | (injection hfc with h
         subst h
         rfl)
      | simp at hfc

theorem recurring_savings_eq (uid : String) (txns : List Txn) (p : Pattern)
    (hp : p ∈ detectRecurringPatterns uid txns) :
    p.savings_potential.estimatedYearly = p.savings_potential.estimatedMonthly * 12 := by
  simp only [detectRecurringPatterns, List.mem_filterMap] at hp
  obtain ⟨g, -, hfc⟩ := hp
  split_ifs at hfc <;>
    first
      | (injection hfc with h
         subst h
         rfl)
      | simp at hfc

theorem dow_savings_eq (uid : String) (ts : List Txn) (p : Pattern)
    (hp : p ∈ analyzeDayOfWeekPatterns uid ts) :
    p.savings_potential.estimatedYearly = p.savings_potential.estimatedMonthly * 12 := by
  simp only [analyzeDayOfWeekPatterns] at hp
  split at hp
  · simp at hp
  · simp only [List.mem_filterMap] at hp
    obtain ⟨d, -, hfd⟩ := hp
    split_ifs at hfd <;>
      first
        | (injection hfd with h
           subst h
           rfl)
        | simp at hfd

theorem tod_savings_eq (uid : String) (ts : List Txn) (p : Pattern)
    (hp : p ∈ analyzeTimeOfDayPatterns uid ts) :
    p.savings_potential.estimatedYearly = p.savings_potential.estimatedMonthly * 12 := by
  simp only [analyzeTimeOfDayPatterns] at hp
  split at hp
  · simp at hp
  · simp only [List.mem_filterMap] at hp
    obtain ⟨per, -, hfp⟩ := hp
    split_ifs at hfp <;>
      first
        | (injection hfp with h
           subst h
           rfl)
        | simp at hfp

theorem temporal_savings_eq (uid : String) (txns hist : List Txn) (p : Pattern)
    (hp : p ∈ detectTemporalPatterns uid txns hist) :
    p.savings_potential.estimatedYearly = p.savings_potential.estimatedMonthly * 12 := by
  simp only [detectTemporalPatterns] at hp
  split at hp
  · simp at hp
  · rcases List.mem_append.mp hp with h | h
    · exact dow_savings_eq uid _ p h
    · exact tod_savings_eq uid _ p h

theorem deviation_savings_eq (uid : String) (txns hist : List Txn) (p : Pattern)
    (hp : p ∈ detectCategoryDeviations uid txns hist) :
    p.savings_potential.estimatedYearly = p.savings_potential.estimatedMonthly * 12 := by
  simp only [detectCategoryDeviations, List.mem_filterMap] at hp
  obtain ⟨c, -, hfc⟩ := hp
  split at hfc
  · simp at hfc
  · split_ifs at hfc <;>
      first
        | (injection hfc with h
           subst h
           rfl)
        | simp at hfc

/-- C3: every `Pattern` created by any of the four detectors satisfies
`savings_potential.estimatedYearly = savings_potential.estimatedMonthly * 12`
at creation time. -/
theorem pattern_savings_invariant (uid : String) (txns hist : List Txn) (p : Pattern)
    (hp : p ∈ detectMicroExpensePatterns uid txns ++ detectRecurringPatterns uid txns
        ++ detectTemporalPatterns uid txns hist ++ detectCategoryDeviations uid txns hist) :
    p.savings_potential.estimatedYearly = p.savings_potential.estimatedMonthly * 12 := by
  rcases List.mem_append.mp hp with h | h
  · rcases List.mem_append.mp h with h2 | h2
    · rcases List.mem_append.mp h2 with h3 | h3
      · exact micro_savings_eq uid txns p h3
      · exact recurring_savings_eq uid txns p h3
    · exact temporal_savings_eq uid txns hist p h2
  · exact deviation_savings_eq uid txns hist p h

/-- Witness for `pattern_savings_invariant` at the concrete micro-expense
pattern produced from three 10,000 expenses in one category. -/
theorem pattern_savings_invariant_witness :
    (microPatternFor ("u") microWitnessTxns ("cafe")).savings_potential.estimatedYearly
      = (microPatternFor ("u") microWitnessTxns ("cafe")).savings_potential.estimatedMonthly
          * 12 := by
  have hmem := microPatternFor_mem ("u") ("cafe") microWitnessTxns
    (by norm_num [microWitnessTxns, mkTxn, isMicroTxn, microExpenseThreshold])
    (by norm_num [microWitnessTxns, mkTxn, isMicroTxn, microExpenseThreshold])
  exact pattern_savings_invariant ("u") microWitnessTxns [] _
    (List.mem_append_left _ (List.mem_append_left _ (List.mem_append_left _ hmem)))

theorem createRec_fields (now : ℚ) (p : Pattern) (r : Reco)
    (h : createRecommendationFromPattern now p = some r) :
    r.user_id = p.user_id ∧ r.pattern_id = p.pid ∧ r.status = "pending" ∧
      r.expires_at = now + 30 := by
  rw [createRecommendationFromPattern] at h
  split_ifs at h
  injection h with h'
  subst h'
  exact ⟨rfl, rfl, rfl, rfl⟩

theorem createRec_some_of_supported (now : ℚ) (p : Pattern)
    (h : supportedPatternType p = true) :
    ∃ r, createRecommendationFromPattern now p = some r := by
  rw [createRecommendationFromPattern, if_pos h]
  exact ⟨_, rfl⟩

theorem createRec_none_of_unsupported (now : ℚ) (p : Pattern)
    (h : ¬ supportedPatternType p = true) :
    createRecommendationFromPattern now p = none := by
  rw [createRecommendationFromPattern, if_neg h]

theorem pendingPred_expireUserStep (uid : String) (now : ℚ) (u q : String) (r : Reco)
    (h : pendingPred u q (expireUserStep uid now r) = true) : pendingPred u q r = true := by
  unfold expireUserStep expireStep at h
  split_ifs at h
  · simp [pendingPred] at h
  · exact h
  · exact h

theorem pendingCount_expire_le (uid : String) (now : ℚ) (u q : String)
    (recs : List Reco) :
    pendingCount (expireOldRecommendations uid now recs) u q ≤ pendingCount recs u q := by
  induction recs with
  | nil => exact le_refl _
  | cons r rs ih =>
    simp only [expireOldRecommendations, List.map_cons, pendingCount,
      List.filter_cons] at ih ⊢
    by_cases hp : pendingPred u q (expireUserStep uid now r) = true
    · rw [if_pos hp, if_pos (pendingPred_expireUserStep uid now u q r hp)]
      simpa using ih
    · rw [if_neg hp]
      by_cases hr : pendingPred u q r = true
      · rw [if_pos hr]
        simp only [List.length_cons]
        omega
      · rw [if_neg hr]
        exact ih

theorem pendingCount_append (xs ys : List Reco) (u q : String) :
    pendingCount (xs ++ ys) u q = pendingCount xs u q + pendingCount ys u q := by
  simp [pendingCount, List.filter_append]

theorem pendingCount_zero_of_not_hasPending (recs : List Reco) (uid pid : String)
    (h : ¬ hasPendingFor recs uid pid = true) : pendingCount recs uid pid = 0 := by
  induction recs with
  | nil => rfl
  | cons r rs ih =>
    simp only [hasPendingFor, List.any_cons, Bool.or_eq_true, not_or] at h
    simp only [pendingCount, List.filter_cons, if_neg h.1]
    exact ih (by simpa [hasPendingFor] using h.2)

theorem expireOld_preserves_invariant (uid : String) (now : ℚ) (recs : List Reco)
    (h : atMostOnePending recs) :
    atMostOnePending (expireOldRecommendations uid now recs) := by
  intro u q
  exact le_trans (pendingCount_expire_le uid now u q recs) (h u q)

theorem genLoop_preserves_invariant (uid : String) (now : ℚ) :
    ∀ (ps : List Pattern) (recs : List Reco),
      (∀ p ∈ ps, p.user_id = uid) → atMostOnePending recs →
      atMostOnePending (generateLoop uid now ps recs).1
  | [], recs, _, h => h
  | p :: ps, recs, hps, h => by
    simp only [generateLoop]
    by_cases hpend : hasPendingFor recs uid p.pid = true
    · rw [if_pos hpend]
      exact genLoop_preserves_invariant uid now ps recs
        (fun q hq => hps q (List.mem_cons_of_mem p hq)) h
    · rw [if_neg hpend]
      rcases hcr : createRecommendationFromPattern now p with _ | r
    -- none: loop continues unchanged
      · exact genLoop_preserves_invariant uid now ps recs
          (fun q hq => hps q (List.mem_cons_of_mem p hq)) h
      · dsimp only
        apply genLoop_preserves_invariant uid now ps (recs ++ [r])
          (fun q hq => hps q (List.mem_cons_of_mem p hq))
        intro u q
        obtain ⟨hru, hrp, hrs, -⟩ := createRec_fields now p r hcr
        have hpuid : p.user_id = uid := hps p (List.mem_cons_self p ps)
        rw [pendingCount_append]
        by_cases hm : u = uid ∧ q = p.pid
        · have h1 : pendingCount [r] u q ≤ 1 := by
            simpa [pendingCount] using List.length_filter_le (pendingPred u q) [r]
          have h0 : pendingCount recs u q = 0 := by
            rw [hm.1, hm.2]
            exact pendingCount_zero_of_not_hasPending recs uid p.pid hpend
          omega
        · have hne : pendingPred u q r = false := by
            rw [Bool.eq_false_iff]
            intro htrue
            simp only [pendingPred, Bool.and_eq_true, decide_eq_true_eq] at htrue
            obtain ⟨⟨hx, hy⟩, -⟩ := htrue
            rw [hru, hpuid] at hx
            rw [hrp] at hy
            exact hm ⟨hx.symm, hy.symm⟩
          have h0 : pendingCount [r] u q = 0 := by
            simp [pendingCount, List.filter_singleton, hne]
          have := h u q
          omega

theorem hasPendingFor_append_left (xs ys : List Reco) (uid pid : String)
    (h : hasPendingFor xs uid pid = true) : hasPendingFor (xs ++ ys) uid pid = true := by
  simp only [hasPendingFor, List.any_append, Bool.or_eq_true]
  exact Or.inl h

theorem genLoop_hasPending_mono (uid : String) (now : ℚ) (u q : String) :
    ∀ (ps : List Pattern) (recs : List Reco),
      hasPendingFor recs u q = true →
      hasPendingFor (generateLoop uid now ps recs).1 u q = true
  | [], recs, h => h
  | p :: ps, recs, h => by
    simp only [generateLoop]
    by_cases hpend : hasPendingFor recs uid p.pid = true
    · rw [if_pos hpend]
      exact genLoop_hasPending_mono uid now u q ps recs h
    · rw [if_neg hpend]
      rcases hcr : createRecommendationFromPattern now p with _ | r
      · exact genLoop_hasPending_mono uid now u q ps recs h
      · dsimp only
        exact genLoop_hasPending_mono uid now u q ps (recs ++ [r])
          (hasPendingFor_append_left recs [r] u q h)

theorem genLoop_creates_pending (uid : String) (now : ℚ) :
    ∀ (ps : List Pattern) (recs : List Reco) (p : Pattern), p ∈ ps →
      p.user_id = uid → supportedPatternType p = true →
      hasPendingFor (generateLoop uid now ps recs).1 uid p.pid = true
  | [], _, p, hp, _, _ => absurd hp (List.not_mem_nil p)
  | q :: qs, recs, p, hp, huser, hsupp => by
    simp only [generateLoop]
    by_cases hpend : hasPendingFor recs uid q.pid = true
    · rw [if_pos hpend]
      rcases List.mem_cons.mp hp with rfl | hp'
      · exact genLoop_hasPending_mono uid now uid p.pid qs recs hpend
      · exact genLoop_creates_pending uid now qs recs p hp' huser hsupp
    · rw [if_neg hpend]
      rcases hcr : createRecommendationFromPattern now q with _ | r
      · rcases List.mem_cons.mp hp with rfl | hp'
        · obtain ⟨r0, hr0⟩ := createRec_some_of_supported now p hsupp
          rw [hr0] at hcr
          exact absurd hcr (by simp)
        · exact genLoop_creates_pending uid now qs recs p hp' huser hsupp
      · dsimp only
        rcases List.mem_cons.mp hp with rfl | hp'
        · apply genLoop_hasPending_mono uid now uid p.pid qs (recs ++ [r])
          obtain ⟨hru, hrp, hrs, -⟩ := createRec_fields now p r hcr
          simp only [hasPendingFor, List.any_append, Bool.or_eq_true]
          refine Or.inr ?_
          simp only [List.any_cons, List.any_nil, Bool.or_false]
          rw [show pendingPred uid p.pid r
              = (decide (r.user_id = uid) && decide (r.pattern_id = p.pid)
                  && decide (r.status = "pending")) from rfl]
          rw [hru, hrp, hrs, huser]
          simp
        · exact genLoop_creates_pending uid now qs (recs ++ [r]) p hp' huser hsupp

theorem expireOld_goodPending (uid : String) (now : ℚ) (recs : List Reco) :
    goodPending uid now (expireOldRecommendations uid now recs) := by
  intro r hr hruid hrst
  simp only [expireOldRecommendations, List.mem_map] at hr
  obtain ⟨s, -, hs⟩ := hr
  by_cases h1 : s.user_id = uid
  · by_cases h2 : s.expires_at < now ∧ s.status ≠ "expired"
    · have hexp : r.status = "expired" := by
        rw [← hs]
        unfold expireUserStep expireStep
        rw [if_pos h1, if_pos h2]
      rw [hexp] at hrst
      simp at hrst
    · have hrs : r = s := by
        rw [← hs]
        unfold expireUserStep expireStep
        rw [if_pos h1, if_neg h2]
      subst hrs
      intro hlt
      exact h2 ⟨hlt, by rw [hrst]; simp⟩
  · have hrs : r = s := by
      rw [← hs]
      unfold expireUserStep
      rw [if_neg h1]
    subst hrs
    exact absurd hruid h1

theorem genLoop_goodPending (uid : String) (now : ℚ) :
    ∀ (ps : List Pattern) (recs : List Reco),
      goodPending uid now recs → goodPending uid now (generateLoop uid now ps recs).1
  | [], recs, h => h
  | p :: ps, recs, h => by
    simp only [generateLoop]
    by_cases hpend : hasPendingFor recs uid p.pid = true
    · rw [if_pos hpend]
      exact genLoop_goodPending uid now ps recs h
    · rw [if_neg hpend]
      rcases hcr : createRecommendationFromPattern now p with _ | r
      · exact genLoop_goodPending uid now ps recs h
      · dsimp only
        apply genLoop_goodPending uid now ps (recs ++ [r])
        intro s hs hsuid hsst
        rcases List.mem_append.mp hs with hmem | hmem
        · exact h s hmem hsuid hsst
        · obtain ⟨-, -, -, hexp⟩ := createRec_fields now p r hcr
          have : s = r := by simpa using hmem
          subst this
          rw [hexp]
          intro hlt
          linarith

theorem expireOld_keeps_goodPending (uid : String) (now : ℚ) (recs : List Reco)
    (u q : String) (hgood : goodPending uid now recs)
    (h : hasPendingFor recs u q = true) (huq : u = uid) :
    hasPendingFor (expireOldRecommendations uid now recs) u q = true := by
  simp only [hasPendingFor, List.any_eq_true] at h ⊢
  obtain ⟨r, hr, hpr⟩ := h
  refine ⟨expireUserStep uid now r, List.mem_map_of_mem _ hr, ?_⟩
  have hfields : (r.user_id = u ∧ r.pattern_id = q) ∧ r.status = "pending" := by
    simpa [pendingPred, Bool.and_eq_true, decide_eq_true_eq] using hpr
  have hnoexp : ¬ r.expires_at < now :=
    hgood r hr (huq ▸ hfields.1.1) hfields.2
  have hstep : expireUserStep uid now r = r := by
    unfold expireUserStep expireStep
    split_ifs with h1 h2
    · exact absurd h2.1 hnoexp
    · rfl
    · rfl
  rw [hstep]
  exact hpr

theorem genLoop_no_new (uid : String) (now : ℚ) :
    ∀ (ps : List Pattern) (recs : List Reco),
      (∀ p ∈ ps, supportedPatternType p = true → hasPendingFor recs uid p.pid = true) →
      generateLoop uid now ps recs = (recs, 0)
  | [], recs, _ => rfl
  | q :: qs, recs, h => by
    simp only [generateLoop]
    by_cases hpend : hasPendingFor recs uid q.pid = true
    · rw [if_pos hpend]
      exact genLoop_no_new uid now qs recs
        (fun p hp hs => h p (List.mem_cons_of_mem q hp) hs)
    · rw [if_neg hpend]
      rcases hcr : createRecommendationFromPattern now q with _ | r
      · exact genLoop_no_new uid now qs recs
          (fun p hp hs => h p (List.mem_cons_of_mem q hp) hs)
      · have hsupp : supportedPatternType q = true := by
          by_contra hq
          rw [createRec_none_of_unsupported now q hq] at hcr
          exact absurd hcr (by simp)
        exact absurd (h q (List.mem_cons_self q qs) hsupp) hpend

/-- C4: starting from a store with at most one pending recommendation per
`(user_id, pattern_id)` pair, `generate_recommendations` preserves that
invariant (so it holds after any number of calls), and immediately
re-running it on its own output — same patterns, same time, hence no new
patterns and no new expirations — generates zero new recommendations. -/
theorem generate_recommendations_dedup_idempotent (uid : String) (now : ℚ)
    (patterns : List Pattern) (recs : List Reco)
    (hps : ∀ p ∈ patterns, p.user_id = uid)
    (hinv : atMostOnePending recs) :
    atMostOnePending (generateRecommendations uid now patterns recs).1 ∧
    (generateRecommendations uid now patterns
        (generateRecommendations uid now patterns recs).1).2 = 0 := by
  constructor
  · exact genLoop_preserves_invariant uid now patterns _ hps
      (expireOld_preserves_invariant uid now recs hinv)
  · have hgood1 : goodPending uid now (generateRecommendations uid now patterns recs).1 :=
      genLoop_goodPending uid now patterns _ (expireOld_goodPending uid now recs)
    have hpend2 : ∀ p ∈ patterns, supportedPatternType p = true →
        hasPendingFor (expireOldRecommendations uid now
          (generateRecommendations uid now patterns recs).1) uid p.pid = true := by
      intro p hp hs
      exact expireOld_keeps_goodPending uid now _ uid p.pid hgood1
        (genLoop_creates_pending uid now patterns _ p hp (hps p hp) hs) rfl
    rw [generateRecommendations, genLoop_no_new uid now patterns _ hpend2]

/-- Witness for `generate_recommendations_dedup_idempotent` on an empty
store with one supported micro-expense pattern. -/
theorem generate_recommendations_dedup_idempotent_witness :
    atMostOnePending (generateRecommendations ("u") 0
      [microPatternFor ("u") microWitnessTxns ("cafe")] []).1 ∧
    (generateRecommendations ("u") 0 [microPatternFor ("u") microWitnessTxns ("cafe")]
      (generateRecommendations ("u") 0
        [microPatternFor ("u") microWitnessTxns ("cafe")] []).1).2 = 0 := by
  refine generate_recommendations_dedup_idempotent ("u") 0
    [microPatternFor ("u") microWitnessTxns ("cafe")] [] ?_ ?_
  · intro p hp
    rw [List.mem_singleton] at hp
    subst hp
    rfl
  · intro u q
    simp [pendingCount]

end OptiMoney
